import Mathlib

/-!
Shallow embedding of the PhoenixGeoPy MTU-5C time-series readers
(`PhoenixGeoPy/Reader/TimeSeries.py`, `base.py`, `native_reader.py`).

Modelling conventions:
* a Python `bytes` value is a `List Nat` of byte values;
* Python `str` values produced by `.decode("utf-8")` are kept as the raw byte
  lists (the claims only involve ASCII content, for which the decode is the
  identity);
* Python floats that take part in gain / scale arithmetic are modelled as
  exact rationals `ℚ`; float fields that are only stored (GPS coordinates,
  signal extrema) are kept as their raw little-endian 32-bit patterns;
* Python runtime exceptions are the error side of `Except PyErr`;
* `struct.unpack_from` uses the platform's native (little-endian) byte order,
  which is what the embedding implements.
-/

set_option maxRecDepth 100000

namespace PhoenixGeoPy

/-- Decidable equality of `Except` values, used to evaluate the embedding on
concrete inputs. -/
instance exceptDecEq {ε α : Type} [DecidableEq ε] [DecidableEq α] :
    DecidableEq (Except ε α) := fun x y =>
  match x, y with
  | .ok a, .ok b =>
    if h : a = b then .isTrue (by rw [h])
    else .isFalse (by intro c; injection c; contradiction)
  | .error a, .error b =>
    if h : a = b then .isTrue (by rw [h])
    else .isFalse (by intro c; injection c; contradiction)
  | .ok _, .error _ => .isFalse (by intro c; exact Except.noConfusion c)
  | .error _, .ok _ => .isFalse (by intro c; exact Except.noConfusion c)

/-- Python runtime errors that the embedded code can raise. -/
inductive PyErr where
  | structErr
  | valueErr
  | attributeErr
  | indexErr
  | chTypeErr
  deriving DecidableEq, Repr, Inhabited

/-- ASCII byte list of a Lean string literal (models an ASCII Python `str`). -/
def asc (s : String) : List Nat := s.toList.map Char.toNat

/-- Python slice `l[a:b]` with `0 ≤ a ≤ b` (an empty slice when `b ≤ a`,
exactly as in Python, e.g. the `ch_hwv[6:1]` slice in `unpack_header`). -/
def pySliceL (l : List Nat) (a b : Nat) : List Nat := (l.drop a).take (b - a)

/-- Remove leading occurrences of byte `c`. -/
def stripLead (c : Nat) (l : List Nat) : List Nat := l.dropWhile (fun x => x = c)

/-- Python `s.strip(chr c)`: remove `c` from both ends. -/
def pyStripC (c : Nat) (l : List Nat) : List Nat :=
  (stripLead c (stripLead c l).reverse).reverse

/-- Membership in Python's `string.hexdigits` (`0-9a-fA-F`). -/
def isHexDigit (c : Nat) : Bool :=
  decide ((48 ≤ c ∧ c ≤ 57) ∨ (65 ≤ c ∧ c ≤ 70) ∨ (97 ≤ c ∧ c ≤ 102))

/-- Value of one hexadecimal digit byte. -/
def hexDigitVal (c : Nat) : Nat :=
  if c ≤ 57 then c - 48 else if c ≤ 70 then c - 55 else c - 87

/-- Python `int(s, 16)` on a string of hexadecimal digit bytes. -/
def hexVal (l : List Nat) : Nat := l.foldl (fun acc c => acc * 16 + hexDigitVal c) 0

/-- Two's-complement reading of a 32-bit unsigned value. -/
def toSigned32 (u : Nat) : Int :=
  if u < 2 ^ 31 then (u : Int) else (u : Int) - 2 ^ 32

/-- `unpack_from('B', b, off)`: one byte; `struct.error` when the buffer is
shorter than `off + 1`. -/
def ule8 (b : List Nat) (off : Nat) : Except PyErr Nat :=
  if off + 1 ≤ b.length then .ok (b.getD off 0) else .error .structErr

/-- `unpack_from('H', b, off)`: little-endian unsigned 16-bit value. -/
def ule16 (b : List Nat) (off : Nat) : Except PyErr Nat :=
  if off + 2 ≤ b.length then .ok (b.getD off 0 + 256 * b.getD (off + 1) 0)
  else .error .structErr

/-- `unpack_from('I', b, off)` (and `'f'`, kept as raw bits): little-endian
unsigned 32-bit value. -/
def ule32 (b : List Nat) (off : Nat) : Except PyErr Nat :=
  if off + 4 ≤ b.length then
    .ok (b.getD off 0 + 256 * b.getD (off + 1) 0 + 65536 * b.getD (off + 2) 0 +
      16777216 * b.getD (off + 3) 0)
  else .error .structErr

/-- `unpack_from('b', b, off)`: signed 8-bit value. -/
def sle8 (b : List Nat) (off : Nat) : Except PyErr Int :=
  if off + 1 ≤ b.length then
    .ok (if b.getD off 0 < 128 then (b.getD off 0 : Int) else (b.getD off 0 : Int) - 256)
  else .error .structErr

/-- `unpack_from('i', b, off)`: signed little-endian 32-bit value. -/
def sle32 (b : List Nat) (off : Nat) : Except PyErr Int := do
  let u ← ule32 b off
  pure (toSigned32 u)

/-- `unpack_from('8s', b, off)` / `unpack_from('cccccccc', b, off)`: eight raw
bytes, all-or-nothing. -/
def bytes8 (b : List Nat) (off : Nat) : Except PyErr (List Nat) :=
  if off + 8 ≤ b.length then .ok ((b.drop off).take 8) else .error .structErr

/-- `unpack_from('BBH', b, off)`: two bytes and a little-endian 16-bit value
(struct size 4, all-or-nothing). -/
def timing3 (b : List Nat) (off : Nat) : Except PyErr (Nat × Nat × Nat) :=
  if off + 4 ≤ b.length then
    .ok (b.getD off 0, b.getD (off + 1) 0, b.getD (off + 2) 0 + 256 * b.getD (off + 3) 0)
  else .error .structErr

/-- Channel type from fingerprint byte 1 (`__populate_channel_type`,
TimeSeries.py 50-54): 69 is `"E"`, 72 is `"H"` (63 would be `"?"`). -/
def ctypeOf (fp1 : Nat) : Nat := if fp1 &&& 0x08 = 0x08 then 69 else 72

/-- Detected channel type from fingerprint byte 1 (TimeSeries.py 57-60). -/
def detectedOf (fp1 : Nat) : Nat := if fp1 &&& 0x20 = 0x20 then 69 else 72

/-- Preamp gain computation inside `__popuate_peamp_gain`
(TimeSeries.py 85-98), after the channel-type guard. -/
def preampCalc (ct fp0 : Nat) (main rev hwv : List Nat) : ℚ :=
  if ct = 69 then
    if fp0 &&& 0x10 ≠ 0 then
      if main = asc "BCM01" ∨ main = asc "BCM03" then
        if rev = asc "L" then 8 else 4
      else
        if hwv.take 7 = asc "BCM05-A" then 4 else 8
    else 1
  else 1

/-- `__popuate_peamp_gain` (TimeSeries.py 82-98): raises when the channel type
is still `"?"` (byte 63), otherwise pure. -/
def preampStep (ct fp0 : Nat) (main rev hwv : List Nat) : Except PyErr ℚ :=
  if ct = 63 then .error .chTypeErr else .ok (preampCalc ct fp0 main rev hwv)

/-- `__populate_lpf` (TimeSeries.py 62-80).  `none` models the Python path
that leaves `lpf_Hz` at its initial `None` (LPF on with `fp0 & 3 == 0`). -/
def lpfOf (fp0 : Nat) (main : List Nat) : Option Nat :=
  if fp0 &&& 0x80 = 0x80 then
    if fp0 &&& 0x03 = 0x03 then some 10
    else if fp0 &&& 0x03 = 0x02 then
      some (if main = asc "BCM03" ∨ main = asc "BCM06" then 1000 else 100)
    else if fp0 &&& 0x03 = 0x01 then
      some (if main = asc "BCM03" ∨ main = asc "BCM06" then 10000 else 1000)
    else none
  else some (if main = asc "BCM03" ∨ main = asc "BCM06" then 17800 else 10000)

/-- `__populate_main_gain` (TimeSeries.py 100-120).  The four cases of
`fp0 & 0x0C` are exhaustive, so the final `else` arm is unreachable. -/
def mainGainOf (fp0 : Nat) (main hwv : List Nat) : ℚ :=
  let new_gains : Prop :=
    ¬(main = asc "BCM01" ∨ main = asc "BCM03") ∧ ¬(hwv.take 7 = asc "BCM05-A")
  if fp0 &&& 0x0C = 0x00 then 1
  else if fp0 &&& 0x0C = 0x04 then 4
  else if fp0 &&& 0x0C = 0x08 then (if new_gains then 6 else 16)
  else (if new_gains then 8 else 32)

/-- `__handle_sensor_range` (TimeSeries.py 122-139): intrinsic circuitry gain,
0.5 by default, 1.0 for `"H"` channels with fingerprint bit `fp1 & 0x01`. -/
def intrStep (ct fp1 : Nat) : Except PyErr ℚ :=
  if ct = 63 then .error .chTypeErr
  else .ok (if ct = 72 then (if fp1 &&& 0x01 = 0x01 then 1 else 1 / 2) else 1 / 2)

/-- `__populate_attenuator_gain` (TimeSeries.py 141-158).  When the attenuator
bit `fp4 & 0x01` is set on an `"E"` channel the source evaluates
`self.cs_hwv[0:7]`; `cs_hwv` is never assigned anywhere in the class, so
Python raises `AttributeError` before a gain can be produced. -/
def attStep (ct fp4 : Nat) : Except PyErr ℚ :=
  if ct = 63 then .error .chTypeErr
  else if fp4 &&& 0x01 ≠ 0 ∧ ct = 69 then .error .attributeErr
  else .ok 1

/-- `int(ch_ser, 16)` guarded by the `string.hexdigits` check
(TimeSeries.py 183-186).  Python's `all(...)` is vacuously true on the empty
string, and `int('', 16)` raises `ValueError`. -/
def chSerParse (s : List Nat) : Except PyErr Nat :=
  if s.all isHexDigit then
    if s.isEmpty then .error .valueErr else .ok (hexVal s)
  else .ok 0

/-- Saturated-frames unpacking (TimeSeries.py 231-233). -/
def satUnpack (raw : Nat) : Nat :=
  if raw &&& 0x80 = 0x80 then (raw &&& 0x7F) <<< 4 else raw

/-- Decoded header record (`Header.unpack_header`, TimeSeries.py 160-239).
Text fields hold byte lists; `channel_type` and `detected_channel_type` hold
the ASCII code of the Python one-character string. -/
structure Header where
  file_type : Nat
  file_version : Nat
  length : Nat
  inst_type : List Nat
  inst_serial : List Nat
  rec_id : Nat
  ch_id : Nat
  file_sequence : Nat
  frag_period : Nat
  ch_hwv : List Nat
  board_model_main : List Nat
  board_model_revision : List Nat
  ch_ser : Nat
  ch_fir : Nat
  conf_fp : List Nat
  channel_type : Nat
  detected_channel_type : Nat
  preamp_gain : ℚ
  lpf_Hz : Option Nat
  channel_main_gain : ℚ
  intrinsic_circuitry_gain : ℚ
  attenuator_gain : ℚ
  total_selectable_gain : ℚ
  total_circuitry_gain : ℚ
  sample_rate_base : Nat
  sample_rate_exp : Int
  sample_rate : ℚ
  bytes_per_sample : Nat
  frame_size : Nat
  dataFooter : Nat
  frameSize : Nat
  decimation_node_id : Nat
  frame_rollover_count : Nat
  gps_long : Nat
  gps_lat : Nat
  gps_height : Nat
  gps_hacc : Nat
  gps_vacc : Nat
  timing_flags : Nat
  timing_sat_count : Nat
  timing_stability : Nat
  future1 : Int
  future2 : Int
  saturated_frames : Nat
  missing_frames : Nat
  battery_voltage_mV : Nat
  min_signal : Nat
  max_signal : Nat
  deriving DecidableEq, Repr, Inhabited

/-- `Header.unpack_header` (TimeSeries.py 160-239) applied to the byte buffer
returned by `stream.read(header_size)`.  Field extractions, string handling
and the gain computations follow the source order exactly; the functions
above carry the file/line references. -/
def unpackHeader (b : List Nat) : Except PyErr Header := do
  let file_type ← ule8 b 0
  let file_version ← ule8 b 1
  let length ← ule16 b 2
  let inst_type_raw ← bytes8 b 4
  let inst_serial_raw ← bytes8 b 12
  let rec_id ← ule32 b 20
  let ch_id ← ule8 b 24
  let file_sequence ← ule32 b 25
  let frag_period ← ule16 b 29
  let ch_hwv_raw ← bytes8 b 31
  let ch_ser_raw ← bytes8 b 39
  let ch_ser ← chSerParse (pyStripC 0 ch_ser_raw)
  let ch_fir ← ule32 b 47
  let conf_fp ← bytes8 b 51
  let ch_hwv := pyStripC 32 ch_hwv_raw
  let board_model_main := ch_hwv.take 5
  let board_model_revision := pySliceL ch_hwv 6 1
  let channel_type := ctypeOf (conf_fp.getD 1 0)
  let preamp_gain ← preampStep channel_type (conf_fp.getD 0 0) board_model_main
    board_model_revision ch_hwv
  let intrinsic_circuitry_gain ← intrStep channel_type (conf_fp.getD 1 0)
  let attenuator_gain ← attStep channel_type (conf_fp.getD 4 0)
  let sample_rate_base ← ule16 b 59
  let sample_rate_exp ← sle8 b 61
  let bytes_per_sample ← ule8 b 62
  let frame_size ← ule32 b 63
  let decimation_node_id ← ule16 b 67
  let frame_rollover_count ← ule16 b 69
  let gps_long ← ule32 b 71
  let gps_lat ← ule32 b 75
  let gps_height ← ule32 b 79
  let gps_hacc ← ule32 b 83
  let gps_vacc ← ule32 b 87
  let timing ← timing3 b 91
  let future1 ← sle8 b 95
  let future2 ← sle32 b 97
  let satRaw ← ule16 b 101
  let missing_frames ← ule16 b 103
  let battery_voltage_mV ← ule16 b 105
  let min_signal ← ule32 b 107
  let max_signal ← ule32 b 111
  pure
    { file_type := file_type
      file_version := file_version
      length := length
      inst_type := pyStripC 0 (pyStripC 32 inst_type_raw)
      inst_serial := pyStripC 0 inst_serial_raw
      rec_id := rec_id
      ch_id := ch_id
      file_sequence := file_sequence
      frag_period := frag_period
      ch_hwv := ch_hwv
      board_model_main := board_model_main
      board_model_revision := board_model_revision
      ch_ser := ch_ser
      ch_fir := ch_fir
      conf_fp := conf_fp
      channel_type := channel_type
      detected_channel_type := detectedOf (conf_fp.getD 1 0)
      preamp_gain := preamp_gain
      lpf_Hz := lpfOf (conf_fp.getD 0 0) board_model_main
      channel_main_gain := mainGainOf (conf_fp.getD 0 0) board_model_main ch_hwv
      intrinsic_circuitry_gain := intrinsic_circuitry_gain
      attenuator_gain := attenuator_gain
      total_selectable_gain :=
        mainGainOf (conf_fp.getD 0 0) board_model_main ch_hwv * preamp_gain *
          attenuator_gain
      total_circuitry_gain :=
        mainGainOf (conf_fp.getD 0 0) board_model_main ch_hwv * preamp_gain *
          attenuator_gain * intrinsic_circuitry_gain
      sample_rate_base := sample_rate_base
      sample_rate_exp := sample_rate_exp
      sample_rate :=
        if sample_rate_exp ≠ 0 then (sample_rate_base : ℚ) * (10 : ℚ) ^ sample_rate_exp
        else (sample_rate_base : ℚ)
      bytes_per_sample := bytes_per_sample
      frame_size := frame_size
      dataFooter := frame_size >>> 24
      frameSize := frame_size &&& 0x0ffffff
      decimation_node_id := decimation_node_id
      frame_rollover_count := frame_rollover_count
      gps_long := gps_long
      gps_lat := gps_lat
      gps_height := gps_height
      gps_hacc := gps_hacc
      gps_vacc := gps_vacc
      timing_flags := timing.1
      timing_sat_count := timing.2.1
      timing_stability := timing.2.2
      future1 := future1
      future2 := future2
      saturated_frames := satUnpack satRaw
      missing_frames := missing_frames
      battery_voltage_mV := battery_voltage_mV
      min_signal := min_signal
      max_signal := max_signal }

/-- List of `n` zero bytes. -/
def zeros (n : Nat) : List Nat := List.replicate n 0

/-- Overwrite the bytes of `l` starting at `off` with `vals` (a helper for
building concrete test buffers). -/
def patch (l : List Nat) (off : Nat) (vals : List Nat) : List Nat :=
  l.take off ++ vals ++ l.drop (off + vals.length)

/-- Concrete 128-byte header template: declared header length 128 at offset 2,
an all-hex board serial at offset 39, frame_size 64 at offset 63, everything
else zero (fingerprint all zero: "H" channel, no preamp, no attenuator). -/
def baseHeader : List Nat :=
  patch (patch (patch (zeros 128) 2 [128, 0]) 39 (asc "00000000")) 63 [64, 0, 0, 0]

/-- Elimination of a successful `Except` bind into its two stages. -/
theorem bind_ok_elim {α β : Type} {x : Except PyErr α} {k : α → Except PyErr β} {r : β}
    (h : x >>= k = .ok r) : ∃ a, x = .ok a ∧ k a = .ok r := by
  cases x with
  | error e => simp [Bind.bind, Except.bind] at h
  | ok a => exact ⟨a, rfl, h⟩

/-- A bind whose continuation always fails cannot succeed. -/
theorem bind_isErr_cont {α β : Type} {x : Except PyErr α} {k : α → Except PyErr β}
    (h : ∀ a, (k a).isOk = false) : (x >>= k).isOk = false := by
  cases x with
  | error e => rfl
  | ok a => exact h a

/-- A bind whose first stage fails cannot succeed. -/
theorem bind_isErr_left {α β : Type} {x : Except PyErr α} {k : α → Except PyErr β}
    (h : x.isOk = false) : (x >>= k).isOk = false := by
  cases x with
  | error e => rfl
  | ok a => simp [Except.isOk, Except.toBool] at h

/-- Shape of every header that `unpackHeader` can return: the derived gain
fields and the string-derived fields are computed from the stored fields
exactly as `unpack_header` computes them. -/
theorem unpackHeader_ok_shape {b : List Nat} {h : Header} (H : unpackHeader b = .ok h) :
    h.total_selectable_gain = h.channel_main_gain * h.preamp_gain * h.attenuator_gain ∧
    h.total_circuitry_gain = h.total_selectable_gain * h.intrinsic_circuitry_gain ∧
    h.board_model_main = h.ch_hwv.take 5 ∧
    h.channel_type = ctypeOf (h.conf_fp.getD 1 0) ∧
    preampStep h.channel_type (h.conf_fp.getD 0 0) h.board_model_main h.board_model_revision
      h.ch_hwv = .ok h.preamp_gain ∧
    attStep h.channel_type (h.conf_fp.getD 4 0) = .ok h.attenuator_gain ∧
    (∃ raw, ule16 b 101 = .ok raw ∧ h.saturated_frames = satUnpack raw) ∧
    (∃ s, bytes8 b 39 = .ok s ∧ chSerParse (pyStripC 0 s) = .ok h.ch_ser) := by
  unfold unpackHeader at H
  obtain ⟨a1, e1, H⟩ := bind_ok_elim H
  obtain ⟨a2, e2, H⟩ := bind_ok_elim H
  obtain ⟨a3, e3, H⟩ := bind_ok_elim H
  obtain ⟨a4, e4, H⟩ := bind_ok_elim H
  obtain ⟨a5, e5, H⟩ := bind_ok_elim H
  obtain ⟨a6, e6, H⟩ := bind_ok_elim H
  obtain ⟨a7, e7, H⟩ := bind_ok_elim H
  obtain ⟨a8, e8, H⟩ := bind_ok_elim H
  obtain ⟨a9, e9, H⟩ := bind_ok_elim H
  obtain ⟨a10, e10, H⟩ := bind_ok_elim H
  obtain ⟨a11, e11, H⟩ := bind_ok_elim H
  obtain ⟨a12, e12, H⟩ := bind_ok_elim H
  obtain ⟨a13, e13, H⟩ := bind_ok_elim H
  obtain ⟨a14, e14, H⟩ := bind_ok_elim H
  obtain ⟨a15, e15, H⟩ := bind_ok_elim H
  obtain ⟨a16, e16, H⟩ := bind_ok_elim H
  obtain ⟨a17, e17, H⟩ := bind_ok_elim H
  obtain ⟨a18, e18, H⟩ := bind_ok_elim H
  obtain ⟨a19, e19, H⟩ := bind_ok_elim H
  obtain ⟨a20, e20, H⟩ := bind_ok_elim H
  obtain ⟨a21, e21, H⟩ := bind_ok_elim H
  obtain ⟨a22, e22, H⟩ := bind_ok_elim H
  obtain ⟨a23, e23, H⟩ := bind_ok_elim H
  obtain ⟨a24, e24, H⟩ := bind_ok_elim H
  obtain ⟨a25, e25, H⟩ := bind_ok_elim H
  obtain ⟨a26, e26, H⟩ := bind_ok_elim H
  obtain ⟨a27, e27, H⟩ := bind_ok_elim H
  obtain ⟨a28, e28, H⟩ := bind_ok_elim H
  obtain ⟨a29, e29, H⟩ := bind_ok_elim H
  obtain ⟨a30, e30, H⟩ := bind_ok_elim H
  obtain ⟨a31, e31, H⟩ := bind_ok_elim H
  obtain ⟨a32, e32, H⟩ := bind_ok_elim H
  obtain ⟨a33, e33, H⟩ := bind_ok_elim H
  obtain ⟨a34, e34, H⟩ := bind_ok_elim H
  obtain ⟨a35, e35, H⟩ := bind_ok_elim H
  obtain ⟨a36, e36, H⟩ := bind_ok_elim H
  simp only [pure, Except.pure, Except.ok.injEq] at H
  subst H
  exact ⟨rfl, rfl, rfl, rfl, e15, e17, ⟨a32, e32, rfl⟩, ⟨a11, e11, e12⟩⟩

/-- C3: for every header that decodes successfully, total_selectable_gain is
channel_main_gain × preamp_gain × attenuator_gain and total_circuitry_gain is
total_selectable_gain × intrinsic_circuitry_gain. -/
theorem c3_total_gain_identity {b : List Nat} {h : Header} (H : unpackHeader b = .ok h) :
    h.total_selectable_gain = h.channel_main_gain * h.preamp_gain * h.attenuator_gain ∧
    h.total_circuitry_gain = h.total_selectable_gain * h.intrinsic_circuitry_gain :=
  ⟨(unpackHeader_ok_shape H).1, (unpackHeader_ok_shape H).2.1⟩

/-- Header value decoded from the concrete template buffer. -/
def c3h : Header :=
  match unpackHeader baseHeader with
  | .ok h => h
  | .error _ => default

/-- Witness for C3 at the concrete template header. -/
theorem c3_total_gain_identity_witness :
    unpackHeader baseHeader = .ok c3h ∧
    (c3h.total_selectable_gain = c3h.channel_main_gain * c3h.preamp_gain * c3h.attenuator_gain ∧
      c3h.total_circuitry_gain = c3h.total_selectable_gain * c3h.intrinsic_circuitry_gain) :=
  ⟨rfl, @c3_total_gain_identity baseHeader c3h rfl⟩

/-- Header buffer whose raw 16-bit saturated_frames field is 0x8A. -/
def satC4hdr : List Nat := patch baseHeader 101 [0x8A, 0]

/-- Header value decoded from `satC4hdr`. -/
def c4h : Header :=
  match unpackHeader satC4hdr with
  | .ok h => h
  | .error _ => default

/-- C4 counterexample: re-applying the saturated-frames unpacking to the
already-unpacked value of raw 0x8A gives 512, not 160, so the unpacking is
not idempotent as claimed. -/
theorem c4_saturated_not_idempotent :
    satUnpack 0x8A = 160 ∧ satUnpack (satUnpack 0x8A) = 512 ∧ (512 : Nat) ≠ 160 := by
  refine ⟨by decide, by decide, by decide⟩

/-- C4 (amended): the decoded saturated_frames value is `(raw & 0x7F) << 4`
when the 0x80 bit is set and raw unchanged otherwise (0x8A ↦ 160, 0x05 ↦ 5);
re-applying the unpacking is the identity precisely on values whose 0x80 bit
is clear (idempotence does not hold in general). -/
theorem c4_saturated_unpack_amended :
    (∀ (b : List Nat) (h : Header) (raw : Nat), unpackHeader b = .ok h →
        ule16 b 101 = .ok raw →
        h.saturated_frames = if raw &&& 0x80 = 0x80 then (raw &&& 0x7F) <<< 4 else raw) ∧
    satUnpack 0x8A = 160 ∧ satUnpack 0x05 = 5 ∧
    (∀ raw : Nat, satUnpack raw &&& 0x80 ≠ 0x80 →
      satUnpack (satUnpack raw) = satUnpack raw) := by
  have key : ∀ v : Nat, v &&& 0x80 ≠ 0x80 → satUnpack v = v := by
    intro v hv
    unfold satUnpack
    rw [if_neg hv]
  refine ⟨?_, by decide, by decide, fun raw h => key _ h⟩
  intro b h raw H hr
  obtain ⟨raw2, hr2, hs⟩ := (unpackHeader_ok_shape H).2.2.2.2.2.2.1
  rw [hr] at hr2
  injection hr2 with he
  rw [hs, ← he]
  rfl

/-- Witness for C4 at the concrete header with raw saturated_frames 0x8A. -/
theorem c4_saturated_unpack_amended_witness :
    unpackHeader satC4hdr = .ok c4h ∧ ule16 satC4hdr 101 = .ok 0x8A ∧
    c4h.saturated_frames =
      (if 0x8A &&& 0x80 = 0x80 then (0x8A &&& 0x7F) <<< 4 else (0x8A : Nat)) ∧
    c4h.saturated_frames = 160 :=
  ⟨rfl, by decide, c4_saturated_unpack_amended.1 satC4hdr c4h 0x8A rfl (by decide), by decide⟩

/-- Header buffer with an "E" channel (fingerprint byte 1 = 0x08) and the
attenuator bit set (fingerprint byte 4 = 0x01). -/
def attC7hdr : List Nat := patch (patch baseHeader 52 [0x08]) 55 [0x01]

/-- C7: decoding a header whose attenuator bit is set on an "E" channel does
not complete: the source evaluates the never-assigned attribute `cs_hwv`
(TimeSeries.py line 151) and raises AttributeError. -/
theorem c7_attenuator_attribute_error :
    unpackHeader attC7hdr = .error .attributeErr ∧
    attC7hdr.getD 52 0 &&& 0x08 = 0x08 ∧ attC7hdr.getD 55 0 &&& 0x01 = 1 :=
  ⟨rfl, by decide, by decide⟩

/-- Header buffer whose board-serial field holds the hex text "0A1F2B3C". -/
def serC8hdrA : List Nat := patch baseHeader 39 (asc "0A1F2B3C")

/-- Header buffer whose board-serial field holds the legacy placeholder
"--------". -/
def serC8hdrB : List Nat := patch baseHeader 39 (asc "--------")

/-- Header value decoded from `serC8hdrA`. -/
def c8hA : Header :=
  match unpackHeader serC8hdrA with
  | .ok h => h
  | .error _ => default

/-- Header value decoded from `serC8hdrB`. -/
def c8hB : Header :=
  match unpackHeader serC8hdrB with
  | .ok h => h
  | .error _ => default

/-- C8 counterexample: the all-hex board-serial text "0A1F2B3C" decodes to the
integer 169814844 (its value as hexadecimal), not to 169 as claimed. -/
theorem c8_board_serial_value_counterexample :
    unpackHeader serC8hdrA = .ok c8hA ∧ c8hA.ch_ser = 169814844 ∧
    (169814844 : Nat) ≠ 169 :=
  ⟨rfl, by decide, by decide⟩

/-- C8 (amended): a board-serial field whose NUL-trimmed text is entirely
hexadecimal digits decodes to its value as a hexadecimal integer, and any
other text decodes to 0; "0A1F2B3C" gives 169814844 and "--------" gives 0. -/
theorem c8_board_serial_amended :
    (∀ (b : List Nat) (h : Header) (s : List Nat), unpackHeader b = .ok h →
        bytes8 b 39 = .ok s →
        h.ch_ser = if (pyStripC 0 s).all isHexDigit then hexVal (pyStripC 0 s) else 0) ∧
    hexVal (asc "0A1F2B3C") = 169814844 ∧
    (asc "--------").all isHexDigit = false := by
  refine ⟨?_, by decide, by decide⟩
  intro b h s H hs
  obtain ⟨s2, hs2, hp⟩ := (unpackHeader_ok_shape H).2.2.2.2.2.2.2
  rw [hs] at hs2
  injection hs2 with he
  subst he
  unfold chSerParse at hp
  by_cases hhex : (pyStripC 0 s).all isHexDigit
  · rw [if_pos hhex] at hp
    by_cases hemp : (pyStripC 0 s).isEmpty
    · rw [if_pos hemp] at hp
      exact absurd hp (by simp)
    · rw [if_neg hemp] at hp
      injection hp with hv
      rw [if_pos hhex, hv]
  · rw [if_neg hhex] at hp
    injection hp with hv
    rw [if_neg hhex, hv]

/-- Witness for C8 at the legacy placeholder input "--------". -/
theorem c8_board_serial_amended_witness :
    unpackHeader serC8hdrB = .ok c8hB ∧
    c8hB.ch_ser =
      (if (pyStripC 0 (asc "--------")).all isHexDigit then
        hexVal (pyStripC 0 (asc "--------")) else 0) ∧
    c8hB.ch_ser = 0 :=
  ⟨rfl, c8_board_serial_amended.1 serC8hdrB c8hB (asc "--------") rfl (by decide), by decide⟩

/-- C9 counterexample: a 115-byte buffer, shorter than its declared
header_length of 128, decodes without any error — there is no truncation
check against the declared header length (and no TruncatedHeaderError exists
in the source). -/
theorem c9_short_buffer_decodes :
    (baseHeader.take 115).length = 115 ∧ ule16 (baseHeader.take 115) 2 = .ok 128 ∧
    (unpackHeader (baseHeader.take 115)).isOk = true :=
  ⟨by decide, by decide, by decide⟩

/-- C9 (amended): header decoding fails (with a struct unpacking error from
some field read, not a dedicated TruncatedHeaderError) whenever the buffer is
shorter than 115 bytes, the end of the last field read by `unpack_header`;
buffers of 115 bytes or more are not rejected for being shorter than the
declared header_length. -/
theorem c9_truncation_amended : ∀ b : List Nat, b.length < 115 → (unpackHeader b).isOk = false := by
  intro b hb
  unfold unpackHeader
  refine bind_isErr_cont fun _ => ?_
  refine bind_isErr_cont fun _ => ?_
  refine bind_isErr_cont fun _ => ?_
  refine bind_isErr_cont fun _ => ?_
  refine bind_isErr_cont fun _ => ?_
  refine bind_isErr_cont fun _ => ?_
  refine bind_isErr_cont fun _ => ?_
  refine bind_isErr_cont fun _ => ?_
  refine bind_isErr_cont fun _ => ?_
  refine bind_isErr_cont fun _ => ?_
  refine bind_isErr_cont fun _ => ?_
  refine bind_isErr_cont fun _ => ?_
  refine bind_isErr_cont fun _ => ?_
  refine bind_isErr_cont fun _ => ?_
  refine bind_isErr_cont fun _ => ?_
  refine bind_isErr_cont fun _ => ?_
  refine bind_isErr_cont fun _ => ?_
  refine bind_isErr_cont fun _ => ?_
  refine bind_isErr_cont fun _ => ?_
  refine bind_isErr_cont fun _ => ?_
  refine bind_isErr_cont fun _ => ?_
  refine bind_isErr_cont fun _ => ?_
  refine bind_isErr_cont fun _ => ?_
  refine bind_isErr_cont fun _ => ?_
  refine bind_isErr_cont fun _ => ?_
  refine bind_isErr_cont fun _ => ?_
  refine bind_isErr_cont fun _ => ?_
  refine bind_isErr_cont fun _ => ?_
  refine bind_isErr_cont fun _ => ?_
  refine bind_isErr_cont fun _ => ?_
  refine bind_isErr_cont fun _ => ?_
  refine bind_isErr_cont fun _ => ?_
  refine bind_isErr_cont fun _ => ?_
  refine bind_isErr_cont fun _ => ?_
  refine bind_isErr_cont fun _ => ?_
  apply bind_isErr_left
  unfold ule32
  rw [if_neg (by omega)]
  rfl

/-- Witness for C9 at a concrete 114-byte buffer. -/
theorem c9_truncation_amended_witness :
    (baseHeader.take 114).length < 115 ∧ (unpackHeader (baseHeader.take 114)).isOk = false :=
  ⟨by decide, c9_truncation_amended (baseHeader.take 114) (by decide)⟩

/-- Equivalence between the slice test `ch_hwv[0:7] == "BCM05-A"` used by the
source and the spec phrasing "starts with BCM05-A". -/
theorem take7_eq_iff_prefix (hwv : List Nat) :
    hwv.take 7 = asc "BCM05-A" ↔ asc "BCM05-A" <+: hwv := by
  rw [List.prefix_iff_eq_take]
  constructor
  · intro h
    rw [show (asc "BCM05-A").length = 7 from rfl]
    exact h.symm
  · intro h
    rw [show (asc "BCM05-A").length = 7 from rfl] at h
    exact h.symm

/-- C6: the decoded preamp gain is 1.0 unless the channel type is "E" and
fingerprint byte 0 has bit 0x10 set; in that case it is 4.0 for board models
BCM01/BCM03 (8.0 when the board-model revision equals "L"), and otherwise 8.0
(4.0 when the hardware-version string starts with "BCM05-A"). -/
theorem c6_preamp_gain {b : List Nat} {h : Header} (H : unpackHeader b = .ok h) :
    h.preamp_gain =
      if h.channel_type = 69 ∧ h.conf_fp.getD 0 0 &&& 0x10 ≠ 0 then
        if h.board_model_main = asc "BCM01" ∨ h.board_model_main = asc "BCM03" then
          if h.board_model_revision = asc "L" then 8 else 4
        else if asc "BCM05-A" <+: h.ch_hwv then 4 else 8
      else 1 := by
  have S := unpackHeader_ok_shape H
  have hct := S.2.2.2.1
  have hp := S.2.2.2.2.1
  have hne : h.channel_type ≠ 63 := by
    rw [hct]
    unfold ctypeOf
    split <;> simp
  unfold preampStep at hp
  rw [if_neg hne] at hp
  injection hp with hp
  rw [← hp]
  unfold preampCalc
  have hiff := take7_eq_iff_prefix h.ch_hwv
  by_cases h1 : h.channel_type = 69 <;>
    by_cases h2 : h.conf_fp.getD 0 0 &&& 0x10 ≠ 0 <;>
      by_cases h3 : h.board_model_main = asc "BCM01" ∨ h.board_model_main = asc "BCM03" <;>
        by_cases h4 : h.ch_hwv.take 7 = asc "BCM05-A" <;>
          simp [h1, h2, h3, h4, ← hiff]

/-- Header buffer with board model "BCM01-I", an "E" channel and the preamp
fingerprint bit set. -/
def preC6hdr : List Nat :=
  patch (patch (patch baseHeader 31 (asc "BCM01-I ")) 51 [0x10]) 52 [0x08]

/-- Header value decoded from `preC6hdr`. -/
def c6h : Header :=
  match unpackHeader preC6hdr with
  | .ok h => h
  | .error _ => default

/-- Witness for C6 at the concrete BCM01 "E"-channel header, whose preamp
gain is 4.0. -/
theorem c6_preamp_gain_witness :
    unpackHeader preC6hdr = .ok c6h ∧
    c6h.preamp_gain =
      (if c6h.channel_type = 69 ∧ c6h.conf_fp.getD 0 0 &&& 0x10 ≠ 0 then
        if c6h.board_model_main = asc "BCM01" ∨ c6h.board_model_main = asc "BCM03" then
          if c6h.board_model_revision = asc "L" then 8 else 4
        else if asc "BCM05-A" <+: c6h.ch_hwv then 4 else 8
      else 1) ∧
    c6h.preamp_gain = 4 ∧ c6h.channel_type = 69 :=
  ⟨rfl, @c6_preamp_gain preC6hdr c6h rfl, by decide, by decide⟩

/-- File-handle events, recording the observable open/close side effects of
the sequence manager (`_open_file` logging and `stream.close()` calls). -/
inductive FEv where
  | opened (i : Nat)
  | closed (i : Nat)
  deriving DecidableEq, Repr, Inhabited

/-- An open Python file object: index of the file in the sorted sequence
list, current position, and whether it has been closed. -/
structure StreamSt where
  fidx : Nat
  pos : Nat
  isOpen : Bool
  deriving DecidableEq, Repr, Inhabited

/-- Mutable state of a `NativeReader` (fields of `TSReaderBase` in base.py
plus `last_frame` and the precomputed scale factor of `NativeReader` in
native_reader.py).  The filesystem (the sorted `sequence_list`) is passed
separately as a `List (List Nat)` of file contents. -/
structure RdrState where
  seq : Int
  last_seq : Int
  stream : Option StreamSt
  events : List FEv
  last_frame : Int
  scale : ℚ
  report_hw_sat : Bool
  deriving DecidableEq, Repr, Inhabited

/-- Python list indexing (`sequence_list[i]`), with negative-index wrap-around
and IndexError past either end; returns the normalized index. -/
def pyIdx (n : Nat) (i : Int) : Except PyErr Nat :=
  if 0 ≤ i ∧ i < (n : Int) then .ok i.toNat
  else if -(n : Int) ≤ i ∧ i < 0 then .ok ((n : Int) + i).toNat
  else .error .indexErr

/-- `self.stream.close()` guarded by `if self.stream is not None` — closing an
already-closed file is a no-op, so a `closed` event is only recorded when the
stream was open. -/
def closeStream (st : RdrState) : RdrState :=
  match st.stream with
  | some s =>
    if s.isOpen then
      { st with stream := some { s with isOpen := false }, events := st.events ++ [.closed s.fidx] }
    else st
  | none => st

/-- `TSReaderBase._open_file` (base.py 103-108) on a path taken from the
sorted sequence list (such a path always exists, so the function opens the
file, logs it, and returns True). -/
def openFileIdx (st : RdrState) (i : Nat) : RdrState :=
  { st with stream := some ⟨i, 0, true⟩, events := st.events ++ [.opened i] }

/-- `TSReaderBase.open_file_seq` (base.py 120-126). -/
def open_file_seq (fs : List (List Nat)) (st : RdrState) (n : Option Int) :
    Except PyErr (RdrState × Bool) := do
  let st1 := closeStream st
  let st2 := match n with
    | some v => { st1 with seq := v }
    | none => st1
  let i ← pyIdx fs.length (st2.seq - 1)
  pure (openFileIdx st2 i, true)

/-- `TSReaderBase.open_next` (base.py 110-118): close the current stream,
advance `seq`, call `open_file_seq` (whose result is discarded), then — only
when `seq` is still below `last_seq` — open `sequence_list[seq - 1]` a second
time and return True; otherwise return False. -/
def open_next (fs : List (List Nat)) (st : RdrState) : Except PyErr (RdrState × Bool) := do
  let st1 := closeStream st
  let st2 := { st1 with seq := st1.seq + 1 }
  let (st3, _) ← open_file_seq fs st2 (some st2.seq)
  if st3.seq < st3.last_seq then
    let i ← pyIdx fs.length (st3.seq - 1)
    pure (openFileIdx st3 i, true)
  else
    pure (st3, false)

/-- `self.stream.read(n)`: up to `n` bytes from the current position of the
current file; reading a closed file raises ValueError, reading with no stream
object raises AttributeError. -/
def streamRead (fs : List (List Nat)) (st : RdrState) (n : Nat) :
    Except PyErr (List Nat × RdrState) :=
  match st.stream with
  | none => .error .attributeErr
  | some s =>
    if s.isOpen then
      let bytes := ((fs.getD s.fidx []).drop s.pos).take n
      .ok (bytes, { st with stream := some { s with pos := s.pos + bytes.length } })
    else .error .valueErr

/-- Little-endian 32-bit value at offset `o` of a byte list (the in-bounds
payload of `unpack_from("I", ...)`). -/
def leval32 (l : List Nat) (o : Nat) : Nat :=
  l.getD o 0 + 256 * l.getD (o + 1) 0 + 65536 * l.getD (o + 2) 0 +
    16777216 * l.getD (o + 3) 0

/-- Value of `unpack(">i", bytes[p:p+3] + b"\x00")`: the three payload bytes
land in the high-order positions of a big-endian signed 32-bit integer. -/
def val3 (b0 b1 b2 : Nat) : Int := toSigned32 (b0 * 16777216 + b1 * 65536 + b2 * 256)

/-- The 20 packed samples of one 64-byte native frame
(native_reader.py 119-123). -/
def decodeSamples (bytes : List Nat) : List Int :=
  (List.range 20).map fun j =>
    val3 (bytes.getD (3 * j) 0) (bytes.getD (3 * j + 1) 0) (bytes.getD (3 * j + 2) 0)

/-- Result of decoding one frame inside `read_frames`. -/
structure FrameRes where
  samples : List ℚ
  counter : Nat
  gaps : List (Nat × Int)
  st : RdrState
  deriving DecidableEq, Repr, Inhabited

/-- One loop body of `read_frames` after a non-empty `stream.read(64)`
(native_reader.py 107-125): unpack the footer (struct.error if fewer than 64
bytes were read), mask the 28-bit counter, report a gap when the difference
from `last_frame` is not 1, store the counter into `last_frame`, and scale
the 20 samples. -/
def frameStep (bytes : List Nat) (st : RdrState) : Except PyErr FrameRes :=
  if bytes.length < 64 then .error .structErr
  else
    let fw := leval32 bytes 60
    let fc := fw &&& 0x0FFFFFFF
    let dif := (fc : Int) - st.last_frame
    .ok { samples := (decodeSamples bytes).map fun v => (v : ℚ) * st.scale
          counter := fc
          gaps := if dif ≠ 1 then [(fc, dif)] else []
          st := { st with last_frame := (fc : Int) } }

/-- Trace of one `read_frames` call: the returned array, the masked footer
counters of the frames decoded (in order), the missing-frame reports printed
(counter and difference), and the final reader state. -/
structure RFOut where
  data : List ℚ
  counters : List Nat
  gaps : List (Nat × Int)
  st : RdrState
  deriving DecidableEq, Repr, Inhabited

/-- Loop of `NativeReader.read_frames` (native_reader.py 97-133) with the
output buffer, counter trace and gap reports as accumulators.  The two
`return np.empty([0])` exits discard the buffer but keep all state changes
(and the reports already printed). -/
def readFramesAux (fs : List (List Nat)) :
    Nat → RdrState → List ℚ → List Nat → List (Nat × Int) → Except PyErr RFOut
  | 0, st, d, c, g => .ok ⟨d, c, g, st⟩
  | Nat.succ m, st, d, c, g =>
    match streamRead fs st 64 with
    | .error e => .error e
    | .ok (bytes, st1) =>
      if bytes.isEmpty then
        match open_next fs st1 with
        | .error e => .error e
        | .ok (st2, more) =>
          if more then
            match streamRead fs st2 64 with
            | .error e => .error e
            | .ok (bytes2, st3) =>
              if bytes2.isEmpty then .ok ⟨[], c, g, st3⟩
              else
                match frameStep bytes2 st3 with
                | .error e => .error e
                | .ok r =>
                  readFramesAux fs m r.st (d ++ r.samples) (c ++ [r.counter]) (g ++ r.gaps)
          else .ok ⟨[], c, g, st2⟩
      else
        match frameStep bytes st1 with
        | .error e => .error e
        | .ok r => readFramesAux fs m r.st (d ++ r.samples) (c ++ [r.counter]) (g ++ r.gaps)

/-- `NativeReader.read_frames(num_frames)` (native_reader.py 79-135). -/
def readFrames (fs : List (List Nat)) (st : RdrState) (n : Nat) : Except PyErr RFOut :=
  readFramesAux fs n st [] [] []

/-- Data-scaling selector of the reader constructor.  Modelled from the spec:
the `DataScaling` enumeration lives in a module that is not part of the
source tree (spec §4.4: raw AD units, volts at the AD input, volts at the
instrument input; an invalid mode is a construction-time error, which cannot
occur for the three-valued enumeration). -/
inductive DataScaling where
  | AD_in_ADunits
  | AD_input_volts
  | instrument_input_volts
  deriving DecidableEq, Repr, Inhabited

/-- `NativeReader._calculate_data_scaling` (native_reader.py 66-77). -/
def calcDataScaling (ds : DataScaling) (adRange circuitryGain : ℚ) : ℚ :=
  match ds with
  | .AD_in_ADunits => 256
  | .AD_input_volts => adRange / 2 ^ 31
  | .instrument_input_volts => (adRange / circuitryGain) / 2 ^ 31

/-- Set the position of the current stream (models `stream.seek` /
the position after `unpack_header` has consumed the header bytes). -/
def setStreamPos (st : RdrState) (p : Nat) : RdrState :=
  { st with stream := match st.stream with
      | some s => some { s with pos := p }
      | none => none }

/-- Construction of a `NativeReader` on the first file of the sequence with
the default arguments (native_reader.py 25-58 together with
`TSReaderBase.__init__`, base.py 23-30): open the base path, decode the
128-byte header (which seeks to 0 and reads 128 bytes), and precompute the
scale factor for the default `DataScaling.AD_input_volts` with
`ad_plus_minus_range = 5.0`.  `s0` is the sequence number parsed from the
file name; `last_seq = s0 + num_files`. -/
def nativeInit (fs : List (List Nat)) (s0 : Int) (num_files : Nat) :
    Except PyErr (Header × RdrState) := do
  let st0 : RdrState :=
    { seq := s0, last_seq := s0 + num_files, stream := none, events := [],
      last_frame := 0, scale := 0, report_hw_sat := false }
  let st1 := openFileIdx st0 0
  let hdr ← unpackHeader ((fs.getD 0 []).take 128)
  let st2 := setStreamPos st1 (min 128 (fs.getD 0 []).length)
  pure (hdr, { st2 with scale := calcDataScaling .AD_input_volts 5 hdr.total_circuitry_gain })


/-- Expected missing-frame reports for a sequence of masked footer counters,
starting from a given last-seen counter: one report `(counter, dif)` for every
counter whose difference from its predecessor is not 1. -/
def gapSpec (last : Int) : List Nat → List (Nat × Int)
  | [] => []
  | x :: xs =>
    (if (x : Int) - last ≠ 1 then [(x, (x : Int) - last)] else []) ++ gapSpec (x : Int) xs

/-- Last element of a counter list, or the given default for the empty list. -/
def lastOr (cs : List Nat) (d : Int) : Int := cs.foldl (fun _ x => (x : Int)) d

theorem closeStream_last_frame (st : RdrState) : (closeStream st).last_frame = st.last_frame := by
  unfold closeStream
  split
  · split <;> rfl
  · rfl

theorem closeStream_scale (st : RdrState) : (closeStream st).scale = st.scale := by
  unfold closeStream
  split
  · split <;> rfl
  · rfl

theorem streamRead_pres {fs : List (List Nat)} {st : RdrState} {n : Nat} {bs : List Nat}
    {st2 : RdrState} (h : streamRead fs st n = .ok (bs, st2)) :
    st2.last_frame = st.last_frame ∧ st2.scale = st.scale := by
  unfold streamRead at h
  split at h
  · exact absurd h (by simp)
  · split at h
    · injection h with h
      injection h with h1 h2
      subst h2
      exact ⟨rfl, rfl⟩
    · exact absurd h (by simp)

theorem open_file_seq_pres {fs : List (List Nat)} {st : RdrState} {n : Option Int}
    {st2 : RdrState} {b : Bool} (h : open_file_seq fs st n = .ok (st2, b)) :
    st2.last_frame = st.last_frame ∧ st2.scale = st.scale := by
  unfold open_file_seq at h
  obtain ⟨i, hi, h⟩ := bind_ok_elim h
  simp only [pure, Except.pure, Except.ok.injEq] at h
  injection h with h1 h2
  subst h1
  cases n <;> simp [openFileIdx, closeStream_last_frame, closeStream_scale]

theorem open_next_pres {fs : List (List Nat)} {st : RdrState}
    {st2 : RdrState} {b : Bool} (h : open_next fs st = .ok (st2, b)) :
    st2.last_frame = st.last_frame ∧ st2.scale = st.scale := by
  unfold open_next at h
  obtain ⟨⟨st3, b3⟩, h3, h⟩ := bind_ok_elim h
  have hp := open_file_seq_pres h3
  dsimp only at h
  split at h
  · obtain ⟨i, hi, h⟩ := bind_ok_elim h
    simp only [pure, Except.pure, Except.ok.injEq] at h
    injection h with h1 h2
    subst h1
    simpa [openFileIdx, closeStream_last_frame, closeStream_scale] using hp
  · simp only [pure, Except.pure, Except.ok.injEq] at h
    injection h with h1 h2
    subst h1
    simpa [closeStream_last_frame, closeStream_scale] using hp

theorem frameStep_ok {bytes : List Nat} {st : RdrState} {r : FrameRes}
    (h : frameStep bytes st = .ok r) :
    r.st.last_frame = (r.counter : Int) ∧ r.st.scale = st.scale ∧
    r.gaps = (if (r.counter : Int) - st.last_frame ≠ 1 then
      [(r.counter, (r.counter : Int) - st.last_frame)] else []) := by
  unfold frameStep at h
  split at h
  · exact absurd h (by simp)
  · injection h with h
    subst h
    exact ⟨rfl, rfl, rfl⟩

theorem lastOr_cons (x : Nat) (xs : List Nat) (d : Int) :
    lastOr (x :: xs) d = lastOr xs (x : Int) := rfl

/-- Master trace invariant of the `read_frames` loop: on a successful return
the reported gaps are exactly the counter discontinuities of the decoded
frames (with their sizes), and `last_frame` ends at the last decoded counter
(or is unchanged when no frame was decoded). -/
theorem readFramesAux_trace {fs : List (List Nat)} :
    ∀ (m : Nat) (st : RdrState) (d : List ℚ) (c : List Nat) (g : List (Nat × Int)) (out : RFOut),
      readFramesAux fs m st d c g = .ok out →
      ∃ cs, out.counters = c ++ cs ∧ out.gaps = g ++ gapSpec st.last_frame cs ∧
        out.st.last_frame = lastOr cs st.last_frame := by
  intro m
  induction m with
  | zero =>
    intro st d c g out h
    injection h with h
    subst h
    exact ⟨[], by simp [gapSpec, lastOr]⟩
  | succ m ih =>
    intro st d c g out h
    unfold readFramesAux at h
    split at h
    · exact absurd h (by simp)
    · rename_i bytes st1 hread
      split at h
      · split at h
        · exact absurd h (by simp)
        · rename_i st2 more hnext
          split at h
          · split at h
            · exact absurd h (by simp)
            · rename_i bytes2 st3 hread2
              split at h
              · injection h with h
                subst h
                refine ⟨[], by simp, ?_, ?_⟩
                · simp [gapSpec]
                · simp [lastOr, (streamRead_pres hread2).1, (open_next_pres hnext).1,
                    (streamRead_pres hread).1]
              · split at h
                · exact absurd h (by simp)
                · rename_i r hstep
                  obtain ⟨cs2, hc2, hg2, hl2⟩ := ih _ _ _ _ _ h
                  obtain ⟨f1, f2, f3⟩ := frameStep_ok hstep
                  have e3 : st3.last_frame = st.last_frame := by
                    rw [(streamRead_pres hread2).1, (open_next_pres hnext).1,
                      (streamRead_pres hread).1]
                  refine ⟨r.counter :: cs2, ?_, ?_, ?_⟩
                  · rw [hc2]
                    simp
                  · rw [hg2, f3, e3]
                    simp [gapSpec, f1]
                  · rw [hl2, f1, lastOr_cons]
          · injection h with h
            subst h
            refine ⟨[], by simp, ?_, ?_⟩
            · simp [gapSpec]
            · simp [lastOr, (open_next_pres hnext).1, (streamRead_pres hread).1]
      · split at h
        · exact absurd h (by simp)
        · rename_i r hstep
          obtain ⟨cs2, hc2, hg2, hl2⟩ := ih _ _ _ _ _ h
          obtain ⟨f1, f2, f3⟩ := frameStep_ok hstep
          have e1 : st1.last_frame = st.last_frame := (streamRead_pres hread).1
          refine ⟨r.counter :: cs2, ?_, ?_, ?_⟩
          · rw [hc2]
            simp
          · rw [hg2, f3, e1]
            simp [gapSpec, f1]
          · rw [hl2, f1, lastOr_cons]


/-- C5: whenever `read_frames` returns, the missing-frame reports it printed
are exactly the frames whose masked footer counter differs from the previous
counter by something other than 1, each reported with its counter and gap
size — gaps are observations, decoding continues and no error is raised for
them. -/
theorem c5_gap_reporting {fs : List (List Nat)} {st : RdrState} {n : Nat} {out : RFOut}
    (H : readFrames fs st n = .ok out) :
    out.gaps = gapSpec st.last_frame out.counters := by
  obtain ⟨cs, hc, hg, hl⟩ := readFramesAux_trace n st [] [] [] out H
  simp only [List.nil_append] at hc hg
  rw [hg, hc]

/-- A 64-byte native frame with all-zero payload and footer counter `c`
(for `c < 256`). -/
def gapFrame (c : Nat) : List Nat := zeros 60 ++ [c, 0, 0, 0]

/-- One-file stream holding four frames with counters 100, 101, 103, 104. -/
def c5file : List Nat := gapFrame 100 ++ gapFrame 101 ++ gapFrame 103 ++ gapFrame 104

/-- Filesystem of the C5 scenario. -/
def c5fs : List (List Nat) := [c5file]

/-- Reader state primed with `last_frame = 99`, positioned at the first
frame. -/
def c5st : RdrState :=
  { seq := 1, last_seq := 2, stream := some ⟨0, 0, true⟩, events := [FEv.opened 0],
    last_frame := 99, scale := 1, report_hw_sat := false }

/-- Result of the C5 scenario run. -/
def c5out : RFOut :=
  match readFrames c5fs c5st 4 with
  | .ok o => o
  | .error _ => default

/-- Witness for C5: decoding counters [100,101,103,104] with the last counter
primed to 99 succeeds, decodes all four frames (80 samples), and reports
exactly one gap, (103, 2). -/
theorem c5_gap_reporting_witness :
    readFrames c5fs c5st 4 = .ok c5out ∧
    c5out.counters = [100, 101, 103, 104] ∧
    c5out.gaps = gapSpec 99 c5out.counters ∧
    c5out.gaps = [(103, 2)] ∧
    c5out.data.length = 80 :=
  ⟨rfl, by decide, @c5_gap_reporting c5fs c5st 4 c5out rfl, by decide,
    by decide⟩

theorem lastOr_getLastD : ∀ (cs : List Nat) (d : Int), cs ≠ [] →
    lastOr cs d = ((cs.getLastD 0 : Nat) : Int)
  | [], _, h => absurd rfl h
  | x :: xs, d, _ => by
    rw [lastOr_cons, List.getLastD_cons]
    cases xs with
    | nil => rfl
    | cons y ys => exact lastOr_getLastD (y :: ys) (x : Int) (by simp)

/-- C10: after any `read_frames` call that decoded at least one frame, the
reader's `last_frame` equals the masked footer counter of the most recently
decoded frame (it is assigned the observed counter, not incremented). -/
theorem c10_last_frame_invariant {fs : List (List Nat)} {st : RdrState} {n : Nat} {out : RFOut}
    (H : readFrames fs st n = .ok out) (hne : out.counters ≠ []) :
    out.st.last_frame = ((out.counters.getLastD 0 : Nat) : Int) := by
  obtain ⟨cs, hc, hg, hl⟩ := readFramesAux_trace n st [] [] [] out H
  simp only [List.nil_append] at hc
  rw [hl, hc, lastOr_getLastD cs st.last_frame (by rw [hc] at hne; exact hne)]

/-- One-file stream with two frames; the second footer has saturation bits in
its top nibble (raw value 0xF0000002, masked counter 2). -/
def c10file : List Nat := (zeros 60 ++ [1, 0, 0, 0]) ++ (zeros 60 ++ [2, 0, 0, 0xF0])

/-- Filesystem of the C10 scenario. -/
def c10fs : List (List Nat) := [c10file]

/-- Reader state for the C10 scenario. -/
def c10st : RdrState :=
  { seq := 1, last_seq := 2, stream := some ⟨0, 0, true⟩, events := [FEv.opened 0],
    last_frame := 0, scale := 1, report_hw_sat := false }

/-- Result of the C10 scenario run. -/
def c10out : RFOut :=
  match readFrames c10fs c10st 2 with
  | .ok o => o
  | .error _ => default

/-- Witness for C10: after decoding two frames whose second raw footer is
0xF0000002, `last_frame` is the masked counter 2 of the last frame. -/
theorem c10_last_frame_invariant_witness :
    readFrames c10fs c10st 2 = .ok c10out ∧
    c10out.counters = [1, 2] ∧
    leval32 (c10file.drop 64) 60 = 0xF0000002 ∧
    c10out.st.last_frame = ((c10out.counters.getLastD 0 : Nat) : Int) ∧
    c10out.st.last_frame = 2 :=
  ⟨rfl, by decide, by decide,
    @c10_last_frame_invariant c10fs c10st 2 c10out rfl (by decide), by decide⟩

/-- A 64-byte native frame whose first sample bytes are [0,0,k] (value 256k)
and whose footer counter is `k` (for `k < 256`). -/
def frameK (k : Nat) : List Nat := [0, 0, k] ++ zeros 57 ++ [k, 0, 0, 0]

/-- Frames with consecutive counters `lo`, `lo+1`, ... -/
def framesRange (lo : Nat) : Nat → List Nat
  | 0 => []
  | n + 1 => frameK lo ++ framesRange (lo + 1) n

/-- First file of the C1 scenario: a 128-byte header and 10 frames with
counters 1..10. -/
def c1file1 : List Nat := baseHeader ++ framesRange 1 10

/-- Second file of the C1 scenario: a 128-byte header and 5 frames with
counters 11..15. -/
def c1file2 : List Nat := baseHeader ++ framesRange 11 5

/-- Filesystem of the C1 scenario: two files with 10 and 5 frames. -/
def c1fs : List (List Nat) := [c1file1, c1file2]

/-- Reader state after `NativeReader(first-file, num_files=2)` (sequence
number 1 parsed from the file name). -/
def c1st : RdrState :=
  match nativeInit c1fs 1 2 with
  | .ok p => p.2
  | .error _ => default

/-- Result of `read_frames(12)` in the C1 scenario. -/
def c1out : RFOut :=
  match readFrames c1fs c1st 12 with
  | .ok o => o
  | .error _ => default

/-- C1: in the two-file scenario (10 and 5 frames, num_files=2),
`read_frames(12)` does return 240 values and closes file 1 before opening
file 2 (twice), but because `open_next` does not skip the next file's
128-byte header, frames 11 and 12 are decoded from file 2's header bytes:
their masked footer counters are 0 and 0 instead of 11 and 12, and spurious
gap reports (0, -10) and (0, 0) are printed although the real counters are
contiguous; once the two files are exhausted, the next `read_frames` call
raises IndexError (from `sequence_list[self.seq - 1]`) instead of returning
the empty end-of-sequence result. -/
theorem c1_read_frames_crossing_bug :
    (nativeInit c1fs 1 2).isOk = true ∧
    readFrames c1fs c1st 12 = .ok c1out ∧
    c1out.data.length = 240 ∧
    c1out.counters = [1, 2, 3, 4, 5, 6, 7, 8, 9, 10, 0, 0] ∧
    c1out.gaps = [(0, -10), (0, 0)] ∧
    c1out.st.events = [FEv.opened 0, FEv.closed 0, FEv.opened 1, FEv.opened 1] ∧
    readFrames c1fs c1out.st 6 = .error .indexErr :=
  ⟨by decide, rfl, by decide, by decide, by decide, by decide, by decide⟩


/-- Value of `unpack(">i", sl + b"\x00")` inside `read` (native_reader.py
191-197): exactly three slice bytes are required, otherwise struct.error. -/
def sampleUnpack (sl : List Nat) : Except PyErr Int :=
  if sl.length = 3 then .ok (val3 (sl.getD 0 0) (sl.getD 1 0) (sl.getD 2 0))
  else .error .structErr

/-- Value of `unpack("I", sl)` inside `read` (native_reader.py 198): exactly
four bytes are required, otherwise struct.error. -/
def footerUnpack (sl : List Nat) : Except PyErr Nat :=
  if sl.length = 4 then .ok (leval32 sl 0) else .error .structErr

/-- The list comprehension that decodes the `npts_per_frame` samples of one
frame slice (native_reader.py 191-197). -/
def sampleSeg (dslice : List Nat) (npts : Nat) : Except PyErr (List Int) :=
  (List.range npts).mapM fun jj => sampleUnpack (pySliceL dslice (jj * 3) (jj * 3 + 3))

/-- Numpy slice assignment `data[i0:i0+len(seg)] = seg` (ValueError on shape
mismatch against the clamped slice). -/
def npAssignSeg (data : List Int) (i0 : Nat) (seg : List Int) : Except PyErr (List Int) :=
  if i0 + seg.length ≤ data.length then
    .ok (data.take i0 ++ seg ++ data.drop (i0 + seg.length))
  else .error .valueErr

/-- Numpy element assignment `footer[i] = v` (IndexError out of range). -/
def npSetAt (l : List Nat) (i : Nat) (v : Nat) : Except PyErr (List Nat) :=
  if i < l.length then .ok (l.take i ++ [v] ++ l.drop (i + 1)) else .error .indexErr

/-- Inner loop of `NativeReader.read` (native_reader.py 184-198): iterate
`zip(data_slices, footer_slices, range(n_frames))`, whose length is the
`bound` fuel passed by the caller; `data_slices[ii]` is
`slice(ii*64, (ii+1)*60 + 4*ii)` and `footer_slices[ii]` is
`slice((ii+1)*60, (ii+1)*60 + 4)`. -/
def innerLoop (byte_string : List Nat) (npts chunk_frames count : Nat) :
    Nat → Nat → List Int → List Nat → Except PyErr (List Int × List Nat)
  | 0, _, data, footer => .ok (data, footer)
  | Nat.succ rem, ii, data, footer => do
    let dslice := pySliceL byte_string (ii * 64) ((ii + 1) * 60 + 4 * ii)
    let fslice := pySliceL byte_string ((ii + 1) * 60) ((ii + 1) * 60 + 4)
    let seg ← sampleSeg dslice npts
    let data2 ← npAssignSeg data ((count * chunk_frames + ii) * npts) seg
    let fw ← footerUnpack fslice
    let footer2 ← npSetAt footer ii fw
    innerLoop byte_string npts chunk_frames count rem (ii + 1) data2 footer2

/-- Chunk loop of `NativeReader.read` (native_reader.py 170-198): read
`_chunk_size = 4096` bytes per chunk, starting right after the 128-byte
header. -/
def outerLoop (f : List Nat) (npts chunk_frames bound : Nat) :
    Nat → Nat → List Int → List Nat → Except PyErr (List Int × List Nat)
  | 0, _, data, footer => .ok (data, footer)
  | Nat.succ rem, count, data, footer => do
    let byte_string := (f.drop (128 + count * 4096)).take 4096
    let p ← innerLoop byte_string npts chunk_frames count bound 0 data footer
    outerLoop f npts chunk_frames bound rem (count + 1) p.1 p.2

/-- `NativeReader.read` (native_reader.py 152-200): preallocate
`n_frames * npts_per_frame` samples and `n_frames` footer slots, seek to the
end of the header, decode whole 4096-byte chunks (any residual chunk is never
read — the source notes this itself), and return both arrays.  The integer
divisions are Python `int((a - b) / c)` on the non-negative in-range values
that occur here; `frame_size_bytes = 0` would be Python's ZeroDivisionError. -/
def nativeRead (fs : List (List Nat)) (hdr : Header) (st : RdrState) :
    Except PyErr (List Int × List Nat × RdrState) :=
  match st.stream with
  | none => .error .attributeErr
  | some s =>
    if s.isOpen then
      let f := fs.getD s.fidx []
      let fsz := hdr.frameSize
      if fsz = 0 then .error .valueErr
      else
        let npts := (fsz - 4) / 3
        let n_frames := (f.length - 128) / fsz
        let chunk_frames := 4096 / fsz
        let n_chunks := (f.length - 128) / 4096
        match outerLoop f npts chunk_frames (min chunk_frames n_frames) n_chunks 0
            (List.replicate (n_frames * npts) 0) (List.replicate n_frames 0) with
        | .error e => .error e
        | .ok (data, footer) =>
          .ok (data, footer, setStreamPos st (128 + min (n_chunks * 4096) (f.length - 128)))
    else .error .valueErr

/-- Loop of `NativeReader.read_sequence` (native_reader.py 202-221): for each
file of `sequence_list[start:end]` (here the whole list), `_open_file` it
(without closing the previous stream), re-decode its header, bulk-`read` it,
and `np.append(data, self.read())`.  Since `self.read()` returns the tuple
`(samples, footers)` with different lengths, `np.append` flattens it into the
accumulated one-dimensional object array, modelled as a list of the appended
arrays (modern numpy raises on the ragged tuple instead; either way no
(samples, footers) pair of arrays is returned). -/
def readSeqLoop (fs : List (List Nat)) :
    Nat → Nat → List (List ℚ) → RdrState → Except PyErr (List (List ℚ) × RdrState)
  | 0, _, objs, st => .ok (objs, st)
  | Nat.succ rem, i, objs, st => do
    let st1 := openFileIdx st i
    let hdr ← unpackHeader ((fs.getD i []).take 128)
    let st2 := setStreamPos st1 (min 128 (fs.getD i []).length)
    let tr ← nativeRead fs hdr st2
    readSeqLoop fs rem (i + 1)
      (objs ++ [tr.1.map (fun v => (v : ℚ)), tr.2.1.map (fun v => (v : ℚ))]) tr.2.2

/-- `NativeReader.read_sequence()` with the default `start=0, end=None`. -/
def nativeReadSequence (fs : List (List Nat)) (st : RdrState) :
    Except PyErr (List (List ℚ) × RdrState) :=
  readSeqLoop fs fs.length 0 [] st

/-- File of the C2 scenario: 128-byte header and one frame (F = 1) whose
footer counter is 1. -/
def c2file : List Nat := baseHeader ++ frameK 1

/-- Filesystem of the C2 scenario: N = 2 files. -/
def c2fs : List (List Nat) := [c2file, c2file]

/-- Reader state after constructing the reader on the first file. -/
def c2st : RdrState :=
  match nativeInit c2fs 1 2 with
  | .ok p => p.2
  | .error _ => default

/-- Result of `read_sequence()` in the C2 scenario. -/
def c2res : Except PyErr (List (List ℚ) × RdrState) := nativeReadSequence c2fs c2st

/-- Object array returned by `read_sequence()` in the C2 scenario. -/
def c2objs : List (List ℚ) :=
  match c2res with
  | .ok p => p.1
  | .error _ => []

/-- C2: for N = 2 files of F = 1 frame each, `read_sequence()` does not
return a sample array of size N×F×20 with a parallel footer array of size
N×F: it flattens each file's `(samples, footers)` tuple into one accumulated
object array, yielding four ragged arrays of lengths 20, 1, 20, 1 (the repo's
own test, `d1, f1 = read_sequence()` with sizes N×F×20 / N×F, cannot pass);
the file's real footer counter at bytes 188..191 is 1. -/
theorem c2_read_sequence_shape_bug :
    (nativeInit c2fs 1 2).isOk = true ∧
    c2res.isOk = true ∧
    c2objs.length = 4 ∧
    c2objs.map List.length = [20, 1, 20, 1] ∧
    leval32 c2file 188 = 1 :=
  ⟨by decide, by decide, by decide, by decide, by decide⟩

end PhoenixGeoPy



